import Mathlib

/-!
Verification of `src/main.py` (single-symbol SuperTrend alert bot).

Shallow embedding: the external collaborators (ccxt exchange, pandas_ta
indicator, telebot transport, clock) are modelled as environment inputs;
the orchestration code of the repository is translated into executable
Lean definitions mirroring the Python line by line.  Logging is modelled
as an explicit list of (level, message) entries produced by each
operation; an exception raised by an external call is modelled as an
environment-chosen outcome carrying the exception text.
-/

namespace SuperTraderBot

/-- Constant SYMBOL, the pair traded, from main.py line 21. -/
def SYMBOL : String := "BTC/USDT"

/-- Constant TIMEFRAME from main.py line 22. -/
def TIMEFRAME : String := "15m"

/-- Constant CHECK_INTERVAL, 900 seconds, from main.py line 23. -/
def CHECK_INTERVAL : Nat := 900

/-- One OHLCV row as returned by `exchange.fetch_ohlcv` (line 45).
Prices and volume are modelled as rationals. -/
structure Candle where
  timestamp : Int
  openPrice : Rat
  high : Rat
  low : Rat
  close : Rat
  volume : Rat
deriving Repr, DecidableEq

/-- The `signal_data` dict built in `get_signal` (lines 70-74). -/
structure SignalData where
  direction : String
  price : Rat
  timestamp : String
deriving Repr, DecidableEq

inductive LogLevel where
  | info
  | warning
  | error
deriving Repr, DecidableEq

abbrev LogEntry := LogLevel × String

/-- Outcome of the `exchange.fetch_ohlcv` call (line 45): either a list of
candles, or one of the exception categories caught at lines 79-87,
carrying the exception text. -/
inductive FetchResult where
  | ok (bars : List Candle)
  | networkError (e : String)
  | exchangeError (e : String)
  | unexpectedError (e : String)

/-- Outcome of the `ta.supertrend` call (lines 54-60): `None`, an empty
frame, a result whose last row holds the `SUPERTd_10_3.0` value
(`none` models a missing/NaN cell), or an exception. -/
inductive SupertrendResult where
  | noResult
  | emptyFrame
  | ok (lastDirection : Option Int)
  | raised (e : String)

/-- The external collaborators consumed by one `get_signal` call:
the exchange fetch outcome, the indicator engine, and the clock
(`datetime.now().strftime(...)`). -/
structure GetSignalEnv where
  fetch : FetchResult
  supertrend : List Candle → SupertrendResult
  now : String

/-- Line 71: the direction is BUY 🟢 when last_direction == 1, else
SELL 🔴; here `none` models a NaN cell, which compares unequal to 1 in
Python. -/
def direction_of (lastDirection : Option Int) : String :=
  if lastDirection = some 1 then "BUY 🟢" else "SELL 🔴"

/-- Method `TradingBot.get_signal` (lines 41-87): fetch candles, guard against
empty data, run SuperTrend, classify the last bar; every exception
category is caught and converted to `none` with one log entry. -/
def get_signal (env : GetSignalEnv) : Option SignalData × List LogEntry :=
  match env.fetch with
  | .networkError e =>
      (none, [(.error, "Ошибка сети при получении данных: " ++ e)])
  | .exchangeError e =>
      (none, [(.error, "Ошибка биржи: " ++ e)])
  | .unexpectedError e =>
      (none, [(.error, "Неожиданная ошибка при получении сигнала: " ++ e)])
  | .ok bars =>
      match bars.getLast? with
      | none =>
          (none, [(.warning, "Получены пустые данные с биржи")])
      | some lastBar =>
          match env.supertrend bars with
          | .noResult =>
              (none, [(.warning, "Не удалось рассчитать SuperTrend")])
          | .emptyFrame =>
              (none, [(.warning, "Не удалось рассчитать SuperTrend")])
          | .raised e =>
              (none, [(.error, "Неожиданная ошибка при получении сигнала: " ++ e)])
          | .ok d =>
              let dir := direction_of d
              let sig : SignalData := ⟨dir, lastBar.close, env.now⟩
              (some sig,
               [(.info, "Сигнал: " ++ dir ++ " по цене " ++ toString lastBar.close)])

/-- Method `TradingBot.format_signal_message` (lines 89-96). -/
def format_signal_message (signal_data : SignalData) : String :=
  "📊 <b>" ++ SYMBOL ++ "</b>\n" ++
  "⚡️ Сигнал: <b>" ++ signal_data.direction ++ "</b>\n" ++
  "💰 Цена: <code>" ++ toString signal_data.price ++ "</code> USDT\n" ++
  "🕐 Время: " ++ signal_data.timestamp

/-- The shared mutable state of `TradingBot` (lines 37-39): `last_signal`
and `is_running`. -/
structure TrackerState where
  last_signal : Option SignalData
  is_running : Bool
deriving Repr, DecidableEq

/-- The condition on line 109: last_signal is None, or the direction of
the current signal differs from the direction of the stored one. -/
def signal_changed (last : Option SignalData) (current : SignalData) : Bool :=
  match last with
  | none => true
  | some l => current.direction != l.direction

/-- Observable outcome of one `auto_check` loop iteration (lines 104-119):
the new `last_signal`, whether the change notification was sent, the log
entries the loop body itself produced, and the sleep length chosen. -/
structure IterResult where
  state : Option SignalData
  sent : Bool
  logs : List LogEntry
  sleep : Nat
deriving Repr, DecidableEq

/-- Lines 107-119, given the already-computed `get_signal` result:
if a signal arrived and its direction changed, build the message and send
it (`sendOk = false` models `bot.send_message` raising, which jumps to the
`except` handler on line 117 before `self.last_signal` is reassigned);
otherwise fall through to `time.sleep(CHECK_INTERVAL)`. -/
def track_step (last : Option SignalData) (current : Option SignalData)
    (sendOk : Bool) : IterResult :=
  match current with
  | none => ⟨last, false, [], CHECK_INTERVAL⟩
  | some s =>
      if signal_changed last s then
        if sendOk then
          ⟨some s, true,
           [(.info, "Отправлено уведомление о новом сигнале: " ++ s.direction)],
           CHECK_INTERVAL⟩
        else
          ⟨last, false, [(.error, "Ошибка в цикле auto_check: send failed")], 60⟩
      else
        ⟨last, false, [], CHECK_INTERVAL⟩

/-- Environment of one full loop iteration: the collaborators of the
evaluator plus whether `bot.send_message` succeeds. -/
structure IterEnv where
  gsEnv : GetSignalEnv
  sendOk : Bool

/-- One full `auto_check` iteration (lines 104-119): run `get_signal`,
then the tracker logic; the iteration logs are the evaluator logs
followed by those of the loop body. -/
def auto_check_iter (last : Option SignalData) (env : IterEnv) : IterResult :=
  let gs := get_signal env.gsEnv
  let r := track_step last gs.1 env.sendOk
  ⟨r.state, r.sent, gs.2 ++ r.logs, r.sleep⟩

/-- The `while self.is_running` loop (line 103) run over a finite trace of
iteration inputs (evaluator result, send outcome).  Every exception inside
the body is caught on line 117, so the loop always proceeds to the next
iteration regardless of failures. -/
def auto_check_run (last : Option SignalData) :
    List (Option SignalData × Bool) → List IterResult
  | [] => []
  | (sig, ok) :: rest =>
      let r := track_step last sig ok
      r :: auto_check_run r.state rest

/-- Second definition for the refinement claim about notifications,
following the words of the spec: a notification is due exactly on the
first-ever signal and on each direction change, never on a repeat.
`d?` is the direction of the previously announced signal, if any. -/
def spec_notification_due : Option String → List SignalData → List Bool
  | _, [] => []
  | d?, s :: rest =>
      let b := match d? with
        | none => true
        | some d => s.direction != d
      b :: spec_notification_due (some s.direction) rest

/-!
## Command surface (lines 130-194)

Each handler is modelled as a function of the tracker state it reads and
of the outcome of each outbound `bot.reply_to` / `bot.send_message` call:
`none` means the call succeeds, `some e` means it raises with text `e`.
A handler returns the list of messages actually delivered to the chat and
a flag saying whether an exception propagated out of the handler
unhandled (`true` = propagated). -/

abbrev SendOutcome := Option String

/-- Text `welcome_text` built in `start` (lines 132-141). -/
def welcome_text : String :=
  "👋 <b>Добро пожаловать в торгового бота!</b>\n\n" ++
  "📈 Отслеживаемая пара: <code>" ++ SYMBOL ++ "</code>\n" ++
  "⏱ Таймфрейм: <code>" ++ TIMEFRAME ++ "</code>\n" ++
  "📊 Индикатор: SuperTrend (10, 3.0)\n\n" ++
  "<b>Доступные команды:</b>\n" ++
  "/status - текущий сигнал\n" ++
  "/info - информация о боте\n" ++
  "/help - справка"

/-- The `/start` handler (lines 130-143): one `bot.reply_to`, no
try/except around it. -/
def start (reply : SendOutcome) : List String × Bool :=
  match reply with
  | none => ([welcome_text], false)
  | some _ => ([], true)

/-- The error reply built in the `except` branch of `/status`
(lines 161-164). -/
def error_reply (e : String) : String :=
  "❌ Произошла ошибка: " ++ e

/-- The "unavailable" reply of `/status` (line 157). -/
def status_unavailable : String :=
  "⚠️ Не удалось получить сигнал. Попробуйте позже."

/-- The `/status` handler (lines 145-164): inside a try block it sends an
acknowledgement, evaluates the signal (`sig` is the `get_signal` result;
`get_signal` itself never raises), and sends either the formatted signal
or the unavailable reply; any exception is caught and answered with an
error reply — which itself may raise, in which case the exception
propagates.  `ack`/`result`/`err` are the outcomes of the three possible
send calls in program order. -/
def status (sig : Option SignalData) (ack result err : SendOutcome) :
    List String × Bool :=
  match ack with
  | some e =>
      match err with
      | none => ([error_reply e], false)
      | some _ => ([], true)
  | none =>
      let body := match sig with
        | some s => format_signal_message s
        | none => status_unavailable
      match result with
      | none => (["⏳ Получаю данные...", body], false)
      | some e =>
          match err with
          | none => (["⏳ Получаю данные...", error_reply e], false)
          | some _ => (["⏳ Получаю данные..."], true)

/-- Text `info_text` built in `info` (lines 168-175). -/
def info_text (st : TrackerState) : String :=
  "ℹ️ <b>Информация о боте</b>\n\n" ++
  "Символ: <code>" ++ SYMBOL ++ "</code>\n" ++
  "Таймфрейм: <code>" ++ TIMEFRAME ++ "</code>\n" ++
  "Интервал проверки: <code>" ++ toString (CHECK_INTERVAL / 60) ++ " минут" ++ "</code>\n" ++
  "Статус: " ++ (if st.is_running then "🟢 Активен" else "🔴 Остановлен") ++ "\n" ++
  "Последний сигнал: <code>" ++
    (match st.last_signal with
     | some s => s.direction
     | none => "Нет данных") ++ "</code>"

/-- The `/info` handler (lines 166-176): builds `info_text` from the
shared tracker state and sends one `bot.reply_to`, with no try/except. -/
def info (st : TrackerState) (reply : SendOutcome) : List String × Bool :=
  match reply with
  | none => ([info_text st], false)
  | some _ => ([], true)

/-- Text `help_text` built in `help_command` (lines 180-193). -/
def help_text : String :=
  "📖 <b>Справка</b>\n\n" ++
  "Бот анализирует рынок криптовалют используя индикатор SuperTrend " ++
  "и отправляет сигналы на покупку/продажу.\n\n" ++
  "<b>Как это работает:</b>\n" ++
  "• Бот проверяет рынок каждые 15 минут\n" ++
  "• При изменении сигнала вы получаете уведомление\n" ++
  "• 🟢 BUY - сигнал на покупку\n" ++
  "• 🔴 SELL - сигнал на продажу\n\n" ++
  "<b>Команды:</b>\n" ++
  "/status - узнать текущий сигнал\n" ++
  "/info - информация о боте\n" ++
  "/help - эта справка"

/-- The `/help` handler (lines 178-194): one `bot.reply_to`, no
try/except. -/
def help_command (reply : SendOutcome) : List String × Bool :=
  match reply with
  | none => ([help_text], false)
  | some _ => ([], true)

/-!
## Startup configuration (lines 19-27 and 197-214) -/

/-- Python truthiness of `os.getenv(...)`: `None` (variable absent) and
the empty string are falsy. -/
def truthy : Option String → Bool
  | none => false
  | some s => !s.isEmpty

/-- Module-level validation (lines 26-27):
`if not TOKEN or not CHAT_ID: raise ValueError(...)`. -/
def validate_config (token chatId : Option String) : Except String Unit :=
  if !truthy token || !truthy chatId then
    .error "Не установлены TELEGRAM_TOKEN или TELEGRAM_CHAT_ID"
  else
    .ok ()

/-- The startup actions of the `__main__` block (lines 197-214), in
program order. -/
inductive StartAction where
  | startAutoCheckThread
  | sendStartedMessage
  | startPolling
deriving Repr, DecidableEq

/-- Process startup: the module-level validation runs before anything in
`__main__`, so on a validation error no loop thread, startup message or
listener is ever started; otherwise the `__main__` block performs its
three actions. -/
def boot (token chatId : Option String) : Except String (List StartAction) :=
  match validate_config token chatId with
  | .error e => .error e
  | .ok () =>
      .ok [.startAutoCheckThread, .sendStartedMessage, .startPolling]

/-- Substring containment: `sub` occurs contiguously in `s`, witnessed by
an explicit decomposition. -/
def containsStr (s sub : String) : Prop :=
  ∃ a b : String, s = a ++ sub ++ b

/-- A concrete signal used to instantiate universally quantified
theorems at a specific input. -/
def demoSignal : SignalData :=
  ⟨"BUY 🟢", 50000, "2026-01-01 00:00:00"⟩

/-- Generalisation of the C1 run property: starting from any stored
signal, the per-iteration send flags of the loop equal the
notification-due sequence of the spec seeded with the direction of the
stored signal. -/
theorem run_sent_eq (sigs : List SignalData) : ∀ last : Option SignalData,
    (auto_check_run last (sigs.map fun s => (some s, true))).map IterResult.sent
      = spec_notification_due (last.map SignalData.direction) sigs := by
  induction sigs with
  | nil => intro last; rfl
  | cons s rest ih =>
      intro last
      cases last with
      | none =>
          simp [auto_check_run, track_step, signal_changed, spec_notification_due,
                ih (some s)]
      | some l =>
          by_cases h : s.direction = l.direction
          · have hb : (s.direction != l.direction) = false := by simp [h]
            simp [auto_check_run, track_step, signal_changed, spec_notification_due,
                  hb, h, ih (some l)]
          · have hb : (s.direction != l.direction) = true := by simp [h]
            simp [auto_check_run, track_step, signal_changed, spec_notification_due,
                  hb, ih (some s)]

/-- C1: a notification is sent in an iteration exactly when the evaluated
direction of the evaluated signal differs from that of the stored last
signal or no prior signal is stored; over any sequence of evaluated signals fed to the
tracker from an empty state (with deliveries succeeding), the send flags
are exactly: one on the first-ever signal, one on each direction change,
none on a repeat — as expressed by the spec-side `spec_notification_due`. -/
theorem C1_notification_iff_direction_change :
    (∀ last s, (track_step last (some s) true).sent = signal_changed last s) ∧
    (∀ last ok, (track_step last none ok).sent = false) ∧
    (∀ sigs : List SignalData,
      (auto_check_run none (sigs.map fun s => (some s, true))).map IterResult.sent
        = spec_notification_due none sigs) := by
  refine ⟨?_, ?_, ?_⟩
  · intro last s
    by_cases h : signal_changed last s <;> simp [track_step, h]
  · intro last ok
    rfl
  · intro sigs
    exact run_sent_eq sigs none

/-- C3: when the exchange returns empty candle data, `get_signal` returns
no signal (it does not raise) and logs exactly one warning. -/
theorem C3_empty_candles_no_signal :
    ∀ (f : List Candle → SupertrendResult) (now : String),
      get_signal ⟨.ok [], f, now⟩
        = (none, [(.warning, "Получены пустые данные с биржи")]) := by
  intro f now
  rfl

/-- C4: a network-level or exchange-level failure raised while fetching
candles is caught inside `get_signal`, logged exactly once with the
exception text, and converted to "no signal"; it never propagates. -/
theorem C4_transport_failure_no_signal :
    ∀ (e : String) (f : List Candle → SupertrendResult) (now : String),
      get_signal ⟨.networkError e, f, now⟩
        = (none, [(.error, "Ошибка сети при получении данных: " ++ e)]) ∧
      get_signal ⟨.exchangeError e, f, now⟩
        = (none, [(.error, "Ошибка биржи: " ++ e)]) := by
  intro e f now
  exact ⟨rfl, rfl⟩

/-- C5: when the evaluation yields no signal, the loop iteration leaves
`last_signal` unchanged, sends nothing, logs nothing of its own, and
sleeps the regular interval. -/
theorem C5_no_signal_no_effect :
    ∀ (last : Option SignalData) (ok : Bool),
      track_step last none ok = ⟨last, false, [], CHECK_INTERVAL⟩ := by
  intro last ok
  rfl

/-- C6 counterexample: a transport failure raised while fetching during a
polling-loop iteration is caught inside `get_signal`, not by the handler
of the loop, and the iteration then sleeps the regular `CHECK_INTERVAL` of
900 seconds — not the 60-second recovery interval the claim requires. -/
theorem C6_counterexample_transport_error_regular_sleep :
    (auto_check_iter none
        ⟨⟨.networkError "timeout", fun _ => .noResult, "t"⟩, true⟩).sleep
      = CHECK_INTERVAL ∧
    CHECK_INTERVAL = 900 ∧
    (auto_check_iter none
        ⟨⟨.networkError "timeout", fun _ => .noResult, "t"⟩, true⟩).logs
      = [(.error, "Ошибка сети при получении данных: timeout")] ∧
    ¬ (900 = 60) := by
  exact ⟨rfl, rfl, rfl, by decide⟩

/-- C6 amended: a failure that reaches the handler of the loop body (a failed
notification send) is caught, logged as an error, and followed by a
60-second recovery sleep instead of the regular interval; a transport
failure raised while fetching is instead absorbed inside the evaluator
and the iteration sleeps the regular interval; and no failure ever
terminates the loop — it always processes every remaining iteration. -/
theorem C6_amended_loop_error_recovery :
    (∀ last s, signal_changed last s = true →
        track_step last (some s) false
          = ⟨last, false,
             [(.error, "Ошибка в цикле auto_check: send failed")], 60⟩) ∧
    (∀ (last : Option SignalData) (e : String)
        (f : List Candle → SupertrendResult) (now : String) (ok : Bool),
        (auto_check_iter last ⟨⟨.networkError e, f, now⟩, ok⟩).sleep
          = CHECK_INTERVAL) ∧
    (∀ (last : Option SignalData) (inputs : List (Option SignalData × Bool)),
        (auto_check_run last inputs).length = inputs.length) := by
  refine ⟨?_, ?_, ?_⟩
  · intro last s h
    simp [track_step, h]
  · intro last e f now ok
    rfl
  · intro last inputs
    induction inputs generalizing last with
    | nil => rfl
    | cons p rest ih =>
        obtain ⟨sig, ok⟩ := p
        simp [auto_check_run, ih]

/-- Instantiation of the C6 amended theorem at a concrete input. -/
theorem C6_amended_loop_error_recovery_witness :
    signal_changed none demoSignal = true ∧
    track_step none (some demoSignal) false
      = ⟨none, false,
         [(.error, "Ошибка в цикле auto_check: send failed")], 60⟩ :=
  ⟨rfl, C6_amended_loop_error_recovery.1 none demoSignal rfl⟩

/-- C9: when the change-notification send fails, `last_signal` is left
unchanged and nothing counts as sent (the assignment on line 112 runs
only after a successful send on line 111), so the same direction change
is announced on the next successful iteration. -/
theorem C9_failed_send_preserves_state :
    ∀ (last : Option SignalData) (s : SignalData),
      signal_changed last s = true →
        (track_step last (some s) false).state = last ∧
        (track_step last (some s) false).sent = false ∧
        (track_step last (some s) true).sent = true ∧
        (track_step last (some s) true).state = some s := by
  intro last s h
  simp [track_step, h]

/-- Instantiation of C9 at a concrete input. -/
theorem C9_failed_send_preserves_state_witness :
    signal_changed none demoSignal = true ∧
    ((track_step none (some demoSignal) false).state = none ∧
     (track_step none (some demoSignal) false).sent = false ∧
     (track_step none (some demoSignal) true).sent = true ∧
     (track_step none (some demoSignal) true).state = some demoSignal) :=
  ⟨rfl, C9_failed_send_preserves_state none demoSignal rfl⟩

/-- C10: the evaluator classifies the last bar as "BUY 🟢" exactly when
the direction value of the indicator equals 1, and as "SELL 🔴" for every
other value, including -1 and a missing/NaN value. -/
theorem C10_direction_classification :
    (∀ v : Option Int, direction_of v = "BUY 🟢" ↔ v = some 1) ∧
    direction_of (some (-1)) = "SELL 🔴" ∧
    direction_of none = "SELL 🔴" ∧
    (∀ v : Option Int, v ≠ some 1 → direction_of v = "SELL 🔴") := by
  refine ⟨?_, by decide, by decide, ?_⟩
  · intro v
    by_cases h : v = some 1 <;> simp [direction_of, h]
  · intro v h
    simp [direction_of, h]

/-- Instantiation of C10 at a concrete input. -/
theorem C10_direction_classification_witness :
    (some 5 : Option Int) ≠ some 1 ∧ direction_of (some 5) = "SELL 🔴" :=
  ⟨by decide, C10_direction_classification.2.2.2 (some 5) (by decide)⟩

/-- C2 counterexample: the `/info` handler has no try/except, so when its
reply call raises, the exception propagates out of the handler unhandled
and no error reply reaches the chat. -/
theorem C2_counterexample_info_unhandled :
    info ⟨none, false⟩ (some "Telegram API error") = ([], true) := by
  rfl

/-- C2 amended: only the `/status` handler catches errors at its boundary
— whenever its error-reply send succeeds, no exception ever propagates
out of `/status`, and a failure in its acknowledgement or result send is
answered with a visible error reply; the `/start`, `/info` and `/help`
handlers have no boundary catch, so an exception raised during their
reply propagates unhandled with no error reply delivered. -/
theorem C2_amended_only_status_catches :
    (∀ (sig : Option SignalData) (ack res : SendOutcome),
        (status sig ack res none).2 = false) ∧
    (∀ (sig : Option SignalData) (e : String) (res : SendOutcome),
        status sig (some e) res none = ([error_reply e], false)) ∧
    (∀ (sig : Option SignalData) (e : String),
        status sig none (some e) none
          = (["⏳ Получаю данные...", error_reply e], false)) ∧
    (∀ (st : TrackerState) (e : String), info st (some e) = ([], true)) ∧
    (∀ e : String, start (some e) = ([], true)) ∧
    (∀ e : String, help_command (some e) = ([], true)) := by
  refine ⟨?_, ?_, ?_, ?_, ?_, ?_⟩
  · intro sig ack res
    cases ack <;> cases res <;> rfl
  · intro sig e res
    rfl
  · intro sig e
    rfl
  · intro st e
    rfl
  · intro e
    rfl
  · intro e
    rfl

/-- C7: startup fails with the configuration error exactly when the token
or the chat id is absent or empty (Python falsiness), performing none of
the startup actions; when both are present and non-empty, startup
proceeds to launch the loop thread, the startup message and the
listener. -/
theorem C7_config_validation :
    (∀ t c : Option String, (truthy t && truthy c) = false →
        boot t c = .error "Не установлены TELEGRAM_TOKEN или TELEGRAM_CHAT_ID") ∧
    (∀ t c : Option String, (truthy t && truthy c) = true →
        boot t c = .ok [.startAutoCheckThread, .sendStartedMessage, .startPolling]) ∧
    (∀ s? : Option String, truthy s? = false ↔ (s? = none ∨ s? = some "")) := by
  refine ⟨?_, ?_, ?_⟩
  · intro t c h
    cases ht : truthy t <;> cases hc : truthy c <;>
      simp_all [boot, validate_config]
  · intro t c h
    cases ht : truthy t <;> cases hc : truthy c <;>
      simp_all [boot, validate_config]
  · intro s?
    cases s? with
    | none => simp [truthy]
    | some s =>
        simp [truthy, String.isEmpty_iff]

/-- Instantiation of C7 at concrete inputs: an absent token fails
startup, and two non-empty secrets let it proceed. -/
theorem C7_config_validation_witness :
    (truthy none && truthy (some "123:abc")) = false ∧
    boot none (some "123:abc")
      = .error "Не установлены TELEGRAM_TOKEN или TELEGRAM_CHAT_ID" ∧
    (truthy (some "123:abc") && truthy (some "42")) = true ∧
    boot (some "123:abc") (some "42")
      = .ok [.startAutoCheckThread, .sendStartedMessage, .startPolling] :=
  ⟨rfl, C7_config_validation.1 none (some "123:abc") rfl, rfl,
   C7_config_validation.2.1 (some "123:abc") (some "42") rfl⟩

/-- C8: for every tracker state, the `/info` reply text contains the
static configuration — symbol, timeframe, check interval and running
status — plus the direction of the stored last signal when one exists, and
the explicit "Нет данных" placeholder when none exists. -/
theorem C8_info_reply_contents :
    ∀ st : TrackerState,
      containsStr (info_text st) SYMBOL ∧
      containsStr (info_text st) TIMEFRAME ∧
      containsStr (info_text st) (toString (CHECK_INTERVAL / 60) ++ " минут") ∧
      containsStr (info_text st)
        (if st.is_running then "🟢 Активен" else "🔴 Остановлен") ∧
      (∀ s, st.last_signal = some s →
        containsStr (info_text st) s.direction) ∧
      (st.last_signal = none → containsStr (info_text st) "Нет данных") := by
  intro st
  refine ⟨?_, ?_, ?_, ?_, ?_, ?_⟩
  · exact ⟨"ℹ️ <b>Информация о боте</b>\n\n" ++ "Символ: <code>",
      "</code>\n" ++ "Таймфрейм: <code>" ++ TIMEFRAME ++ "</code>\n" ++
      "Интервал проверки: <code>" ++ toString (CHECK_INTERVAL / 60) ++
      " минут" ++ "</code>\n" ++
      "Статус: " ++ (if st.is_running then "🟢 Активен" else "🔴 Остановлен") ++
      "\n" ++ "Последний сигнал: <code>" ++
      (match st.last_signal with
       | some s => s.direction
       | none => "Нет данных") ++ "</code>",
      by simp only [info_text, String.append_assoc]⟩
  · exact ⟨"ℹ️ <b>Информация о боте</b>\n\n" ++ "Символ: <code>" ++ SYMBOL ++
      "</code>\n" ++ "Таймфрейм: <code>",
      "</code>\n" ++
      "Интервал проверки: <code>" ++ toString (CHECK_INTERVAL / 60) ++
      " минут" ++ "</code>\n" ++
      "Статус: " ++ (if st.is_running then "🟢 Активен" else "🔴 Остановлен") ++
      "\n" ++ "Последний сигнал: <code>" ++
      (match st.last_signal with
       | some s => s.direction
       | none => "Нет данных") ++ "</code>",
      by simp only [info_text, String.append_assoc]⟩
  · exact ⟨"ℹ️ <b>Информация о боте</b>\n\n" ++ "Символ: <code>" ++ SYMBOL ++
      "</code>\n" ++ "Таймфрейм: <code>" ++ TIMEFRAME ++ "</code>\n" ++
      "Интервал проверки: <code>",
      "</code>\n" ++
      "Статус: " ++ (if st.is_running then "🟢 Активен" else "🔴 Остановлен") ++
      "\n" ++ "Последний сигнал: <code>" ++
      (match st.last_signal with
       | some s => s.direction
       | none => "Нет данных") ++ "</code>",
      by simp only [info_text, String.append_assoc]⟩
  · exact ⟨"ℹ️ <b>Информация о боте</b>\n\n" ++ "Символ: <code>" ++ SYMBOL ++
      "</code>\n" ++ "Таймфрейм: <code>" ++ TIMEFRAME ++ "</code>\n" ++
      "Интервал проверки: <code>" ++ toString (CHECK_INTERVAL / 60) ++
      " минут" ++ "</code>\n" ++ "Статус: ",
      "\n" ++ "Последний сигнал: <code>" ++
      (match st.last_signal with
       | some s => s.direction
       | none => "Нет данных") ++ "</code>",
      by simp only [info_text, String.append_assoc]⟩
  · intro s hs
    exact ⟨"ℹ️ <b>Информация о боте</b>\n\n" ++ "Символ: <code>" ++ SYMBOL ++
      "</code>\n" ++ "Таймфрейм: <code>" ++ TIMEFRAME ++ "</code>\n" ++
      "Интервал проверки: <code>" ++ toString (CHECK_INTERVAL / 60) ++
      " минут" ++ "</code>\n" ++
      "Статус: " ++ (if st.is_running then "🟢 Активен" else "🔴 Остановлен") ++
      "\n" ++ "Последний сигнал: <code>",
      "</code>",
      by simp only [info_text, hs, String.append_assoc]⟩
  · intro hn
    exact ⟨"ℹ️ <b>Информация о боте</b>\n\n" ++ "Символ: <code>" ++ SYMBOL ++
      "</code>\n" ++ "Таймфрейм: <code>" ++ TIMEFRAME ++ "</code>\n" ++
      "Интервал проверки: <code>" ++ toString (CHECK_INTERVAL / 60) ++
      " минут" ++ "</code>\n" ++
      "Статус: " ++ (if st.is_running then "🟢 Активен" else "🔴 Остановлен") ++
      "\n" ++ "Последний сигнал: <code>",
      "</code>",
      by simp only [info_text, hn, String.append_assoc]⟩

/-- Instantiation of C8 at concrete states: one with a stored signal,
one without. -/
theorem C8_info_reply_contents_witness :
    (⟨some demoSignal, true⟩ : TrackerState).last_signal = some demoSignal ∧
    containsStr (info_text ⟨some demoSignal, true⟩) demoSignal.direction ∧
    (⟨none, false⟩ : TrackerState).last_signal = none ∧
    containsStr (info_text ⟨none, false⟩) "Нет данных" :=
  ⟨rfl,
   (C8_info_reply_contents ⟨some demoSignal, true⟩).2.2.2.2.1 demoSignal rfl,
   rfl,
   (C8_info_reply_contents ⟨none, false⟩).2.2.2.2.2 rfl⟩

end SuperTraderBot
